import Mathlib

/-!
Shallow embedding of the Queryverse query-understanding pipeline
(`src/agents/query_interpreter.py`, `src/agents/query_decomposer.py`,
`src/agents/retrieval_agent.py`, `src/agents/orchestrator.py`,
`src/rendering/text_renderer.py`) together with theorems settling the
frozen specification claims.

Modelling conventions:
- spaCy `Doc` objects are modelled abstractly as a list of tokens (each
  carrying its surface text, dependency tag and head text), a list of
  named entities (text plus NER label) and the raw document text; the
  linguistic analysis itself is an external capability.
- Python `str.lower()` / `str.strip()` / `str.split` are modelled by
  character-list functions (`pyLower`, `pyStrip`, ...; the texts involved
  are ASCII), Python's substring test `a in b` by infix search on the
  character lists, and Python floats by rationals.
- fallible external calls (spaCy model load/run, sentence-transformer
  encoding, Qdrant / Neo4j queries) are modelled as oracle functions
  returning `Except String`; a Python exception corresponds to the
  `Except.error` case and a `try/except` block to a `match` on it.
-/

namespace Queryverse

/-- Token of a parsed document: surface text, dependency tag, head text. -/
structure Token where
  text : String
  dep : String
  headText : String
deriving DecidableEq, Repr

/-- Named entity recognized by the NER capability. -/
structure Ent where
  text : String
  label : String
deriving DecidableEq, Repr

/-- Abstract spaCy document: tokens, named entities, and the raw text. -/
structure Doc where
  tokens : List Token
  ents : List Ent
  text : String
deriving DecidableEq, Repr

/-- Python `s.lower()`, written on the character list so that it reduces
inside the kernel (the texts involved are ASCII). -/
def pyLower (s : String) : String := ⟨s.toList.map Char.toLower⟩

/-- Python `s.strip()`: drop leading and trailing whitespace. -/
def pyStrip (s : String) : String :=
  ⟨((s.toList.dropWhile Char.isWhitespace).reverse.dropWhile Char.isWhitespace).reverse⟩

/-- Split a character list at every character satisfying `p`, keeping
(possibly empty) segments. -/
def splitCharAux (p : Char → Bool) (cur : List Char) : List Char → List (List Char)
  | [] => [cur.reverse]
  | c :: cs =>
    if p c then cur.reverse :: splitCharAux p [] cs
    else splitCharAux p (c :: cur) cs

/-- Scanner for Python `s.split(sep)` with a non-empty separator: cut at
every occurrence of `sep`, keeping (possibly empty) segments. -/
def splitOnAux (sep : List Char) (cur : List Char) : Nat → List Char → List (List Char)
  | 0, cs => [cur.reverse ++ cs]
  | _ + 1, [] => [cur.reverse]
  | fuel + 1, c :: cs =>
    if sep.isPrefixOf (c :: cs) then
      cur.reverse :: splitOnAux sep [] fuel ((c :: cs).drop sep.length)
    else splitOnAux sep (c :: cur) fuel cs

/-- Python `s.split(sep)` for a non-empty separator string. -/
def pySplitOnStr (sep : String) (s : String) : List String :=
  (splitOnAux sep.toList [] s.toList.length s.toList).map String.mk

/-- Contiguous-sublist test on character lists: does `needle` start at
some position of `hay`? -/
def charInfixOf (needle : List Char) : List Char → Bool
  | [] => needle.isEmpty
  | c :: rest => needle.isPrefixOf (c :: rest) || charInfixOf needle rest

/-- Python substring test `needle in hay`. -/
def pySubstr (needle hay : String) : Bool :=
  charInfixOf needle.toList hay.toList

/-- Curated medical vocabulary from `QueryInterpreter.__init__`. -/
def medical_entities : List String :=
  ["disease", "condition", "symptom", "treatment", "medication",
   "virus", "viruses", "bacteria", "infection", "syndrome", "disorder",
   "fever", "pain", "cough", "headache", "fatigue", "nausea",
   "dizziness", "rash", "inflammation",
   "diabetes", "asthma", "cancer", "flu", "cold", "covid-19",
   "pneumonia", "bronchitis", "malaria", "hypertension",
   "aspirin", "ibuprofen", "paracetamol", "antibiotic",
   "heart", "lung", "liver", "kidney", "brain", "stomach",
   "heart disease", "lung cancer", "blood pressure",
   "immune system", "respiratory system"]

/-- Intent keyword sets from `QueryInterpreter.__init__`, in insertion
order (Python dict iteration order). -/
def intent_patterns : List (String × List String) :=
  [("symptoms", ["symptom", "sign", "manifestation", "indication"]),
   ("diagnosis", ["diagnose", "cause", "reason", "why"]),
   ("treatment", ["treat", "cure", "medicine", "therapy", "medication"]),
   ("prevention", ["prevent", "avoid", "protection", "prophylaxis"]),
   ("information", ["what", "how", "when", "where", "who"])]

/-- Comparative guard of `_determine_query_type`: a token spelled
"vs"/"versus"/"compared"/"compare". -/
def comparative_cond (doc : Doc) : Bool :=
  doc.tokens.any (fun t => ["vs", "versus", "compared", "compare"].contains (pyLower t.text))

/-- Dependency-based causal guard of `_determine_query_type`: a token with
dependency tag "mark" spelled "because"/"since"/"as". -/
def mark_causal_cond (doc : Doc) : Bool :=
  doc.tokens.any (fun t => t.dep == "mark" && ["because", "since", "as"].contains (pyLower t.text))

/-- Temporal guard of `_determine_query_type`: an adverbial-modifier token
spelled "when" or "how long". -/
def temporal_cond (doc : Doc) : Bool :=
  doc.tokens.any (fun t => t.dep == "advmod" && ["when", "how long"].contains (pyLower t.text))

/-- Lexical causal guard of `_determine_query_type`: one of the causal
marker words occurs as a substring of the lowercased text. -/
def lexical_causal_cond (doc : Doc) : Bool :=
  ["because", "since", "as", "due to", "caused by", "why"].any
    (fun w => pySubstr w (pyLower doc.text))

/-- Embedding of `QueryInterpreter._determine_query_type`. -/
def determine_query_type (doc : Doc) : String :=
  if doc.tokens.any (fun t => ["vs", "versus", "compared", "compare"].contains (pyLower t.text)) then
    "comparative"
  else if doc.tokens.any (fun t =>
      t.dep == "mark" && ["because", "since", "as"].contains (pyLower t.text)) then
    "causal"
  else if doc.tokens.any (fun t =>
      t.dep == "advmod" && ["when", "how long"].contains (pyLower t.text)) then
    "temporal"
  else if ["because", "since", "as", "due to", "caused by", "why"].any
      (fun w => pySubstr w (pyLower doc.text)) then
    "causal"
  else
    "factual"

/-- Embedding of `QueryInterpreter._extract_intent`. -/
def extract_intent (doc : Doc) : String :=
  let queryText := (pyLower doc.text)
  if doc.tokens.any (fun t => t.dep == "advmod" && ["when", "how long"].contains (pyLower t.text)) then
    "information"
  else
    match intent_patterns.find? (fun p => p.2.any (fun pat => pySubstr pat queryText)) with
    | some p => p.1
    | none =>
      if pySubstr "symptom" queryText || pySubstr "sign" queryText then "symptoms"
      else if pySubstr "treat" queryText || pySubstr "cure" queryText ||
          pySubstr "medicine" queryText then "treatment"
      else "information"

/-- Entity candidates collected by `QueryInterpreter._extract_entities`
before deduplication: NER hits with an allow-listed label, compound
vocabulary phrases occurring in the lowercased text, then per-token
vocabulary hits and dependency-compound phrases. -/
def raw_entities (doc : Doc) : List String :=
  let ner := (doc.ents.filter (fun e => ["DISEASE", "ORG", "PRODUCT"].contains e.label)).map Ent.text
  let text := (pyLower doc.text)
  let compounds := medical_entities.filter (fun ent => ent.toList.contains ' ' && pySubstr ent text)
  let tokenHits := (doc.tokens.map (fun t =>
    (if medical_entities.contains (pyLower t.text) then [t.text] else []) ++
    (if t.dep == "compound" &&
        medical_entities.contains (pyLower (t.text ++ " " ++ t.headText)) then
      [t.text ++ " " ++ t.headText]
    else []))).flatten
  ner ++ compounds ++ tokenHits

/-- Deduplication loop of `_extract_entities`: drop an entity whose
lowercasing was already seen, otherwise keep it and record its
lowercasing. -/
def dedup_ci_go (seen : List String) : List String → List String
  | [] => []
  | e :: rest =>
    if seen.contains (pyLower e) then dedup_ci_go seen rest
    else e :: dedup_ci_go (pyLower e :: seen) rest

/-- Case-insensitive, order-preserving deduplication (the final loop of
`_extract_entities`, run with an empty seen set). -/
def dedup_ci (xs : List String) : List String := dedup_ci_go [] xs

/-- Embedding of `QueryInterpreter._extract_entities`. -/
def extract_entities (doc : Doc) : List String := dedup_ci (raw_entities doc)

/-- Value of the Python `query` argument of `interpret`: a string, or a
non-string value of which only the truthiness and type name matter. -/
inductive PyInput where
  | str (s : String)
  | nonStr (truthy : Bool) (tyName : String)
deriving DecidableEq, Repr

/-- Python falsiness of the input (`not query`). -/
def PyInput.falsy : PyInput → Bool
  | .str s => s.isEmpty
  | .nonStr t _ => !t

/-- Values stored in the dictionaries returned by `interpret`. -/
inductive PyVal where
  | s (v : String)
  | strList (vs : List String)
  | raw (q : PyInput)
deriving DecidableEq, Repr

/-- Embedding of `QueryInterpreter.interpret`; the NLP pipeline
(`self.nlp`) is an oracle that either parses the query into a `Doc` or
raises. The result dictionary is an association list in insertion order. -/
def interpret (nlp : String → Except String Doc) (query : PyInput) :
    List (String × PyVal) :=
  if query.falsy then
    [("error", .s "Empty query provided"), ("query", .raw query)]
  else
    match query with
    | .nonStr _ ty =>
      [("error", .s ("Invalid query type: " ++ ty)), ("query", .raw query)]
    | .str q =>
      match nlp q with
      | .error e => [("error", .s e), ("query", .raw query)]
      | .ok doc =>
        [("intent", .s (extract_intent doc)),
         ("entities", .strList (extract_entities doc)),
         ("query_type", .s (determine_query_type doc)),
         ("original_query", .s q)]

/-- Dictionary lookup (`d[k]` / `d.get(k)`), first binding wins. -/
def pyLookup (k : String) (d : List (String × PyVal)) : Option PyVal :=
  (d.find? (fun p => p.1 == k)).map (fun p => p.2)

/-- Word characters in the sense of the regex word-boundary escape. -/
def isWordChar (c : Char) : Bool := c.isAlphanum || c == '_'

/-- Case-insensitive literal match at the head of `cs`; on success returns
the consumed original characters and the remainder. -/
def matchCI : List Char → List Char → Option (List Char × List Char)
  | [], cs => some ([], cs)
  | _ :: _, [] => none
  | p :: ps, c :: cs =>
    if p.toLower == c.toLower then
      (matchCI ps cs).map (fun r => (c :: r.1, r.2))
    else none

/-- Try the alternatives of a word-boundary-delimited alternation at the
current scan position; `prev` is the character just before that position
in the original text. All alternatives used in the source start and end
with word characters, so the boundary holds exactly when the neighbouring
character is absent or not a word character. -/
def tryAlts (alts : List (List Char)) (prev : Option Char) (cs : List Char) :
    Option (List Char × List Char) :=
  alts.findSome? (fun alt =>
    match matchCI alt cs with
    | none => none
    | some r =>
      let beforeOk := match prev with
        | none => true
        | some c => !isWordChar c
      let afterOk := match r.2 with
        | [] => true
        | c :: _ => !isWordChar c
      if beforeOk && afterOk then some r else none)

/-- Last character of the consumed match, falling back to the previous
scan character (used to update `prev` after a removal). -/
def lastOr (consumed : List Char) (prev : Option Char) : Option Char :=
  match consumed.getLast? with
  | some c => some c
  | none => prev

/-- Scanner for `re.sub(pattern, '', s)` with a word-boundary-delimited
alternation: delete every match, scanning left to right. The fuel is the
length of the text, which bounds the number of scan steps. -/
def wbRemoveGo (alts : List (List Char)) : Option Char → Nat → List Char → List Char
  | _, 0, cs => cs
  | _, _ + 1, [] => []
  | prev, fuel + 1, c :: cs =>
    match tryAlts alts prev (c :: cs) with
    | some r => wbRemoveGo alts (lastOr r.1 prev) fuel r.2
    | none => c :: wbRemoveGo alts (some c) fuel cs

/-- Embedding of `re.sub(r'\b(w1|w2|...)\b', '', s, flags=re.IGNORECASE)`. -/
def pyReSubWords (alts : List String) (s : String) : String :=
  ⟨wbRemoveGo (alts.map String.toList) none s.toList.length s.toList⟩

/-- Scanner for `re.split` on a word-boundary-delimited word: cut the text
at every match, keeping (possibly empty) segments. -/
def wbSplitGo (alts : List (List Char)) :
    Option Char → List Char → Nat → List Char → List (List Char)
  | _, cur, 0, cs => [cur.reverse ++ cs]
  | _, cur, _ + 1, [] => [cur.reverse]
  | prev, cur, fuel + 1, c :: cs =>
    match tryAlts alts prev (c :: cs) with
    | some r => cur.reverse :: wbSplitGo alts (lastOr r.1 prev) [] fuel r.2
    | none => wbSplitGo alts (some c) (c :: cur) fuel cs

/-- Embedding of `re.split(r'\bw\b', s, flags=re.IGNORECASE)`. -/
def pyReSplitWord (w : String) (s : String) : List String :=
  (wbSplitGo [w.toList] none [] s.toList.length s.toList).map String.mk

/-- Scanner for `re.sub(r'\s+', ' ', s)`: collapse every whitespace run to
a single space. -/
def collapseWsGo : Nat → List Char → List Char
  | 0, cs => cs
  | _ + 1, [] => []
  | fuel + 1, c :: cs =>
    if c.isWhitespace then ' ' :: collapseWsGo fuel (cs.dropWhile Char.isWhitespace)
    else c :: collapseWsGo fuel cs

/-- Embedding of `re.sub(r'\s+', ' ', s)`. -/
def collapseWs (s : String) : String :=
  ⟨collapseWsGo s.toList.length s.toList⟩

/-- Embedding of `QueryDecomposer._extract_main_entity`. -/
def extract_main_entity (text : String) : String :=
  let t1 := pyReSubWords
    ["what", "how", "when", "where", "why", "are", "is", "do", "does", "did"] text
  let t2 := pyReSubWords
    ["symptoms", "treatments", "causes", "of", "for", "compare", "vs", "versus"] t1
  collapseWs (pyStrip t2)

/-- Sub-question template shared by the comparative decomposition loops. -/
def aspect_question (aspect entity : String) : List String :=
  if aspect == "symptoms" then ["What are the symptoms of " ++ entity ++ "?"]
  else if aspect == "treatments" then ["What are the treatments for " ++ entity ++ "?"]
  else if aspect == "causes" then ["What are the causes of " ++ entity ++ "?"]
  else []

/-- Embedding of `QueryDecomposer._decompose_comparative`. -/
def decompose_comparative (query : String) (entities : List String) : List String :=
  let q := (pyLower query)
  let aspects0 :=
    (if pySubstr "symptom" q then ["symptoms"] else []) ++
    (if pySubstr "treatment" q || pySubstr "treat" q then ["treatments"] else []) ++
    (if pySubstr "cause" q then ["causes"] else [])
  let aspects := if aspects0.isEmpty then ["symptoms"] else aspects0
  if entities.length ≥ 2 then
    (aspects.map (fun aspect =>
      (entities.map (fun entity => aspect_question aspect entity)).flatten)).flatten
  else
    let cleanQuery := pyReSubWords ["compare", "vs", "versus"] query
    let parts := pyReSplitWord "and" cleanQuery
    let conditions := (parts.map pyStrip).filter (fun p => !p.isEmpty)
    (aspects.map (fun aspect =>
      (conditions.map (fun condition =>
        let entity := extract_main_entity condition
        if !entity.isEmpty then aspect_question aspect entity else [])).flatten)).flatten

/-- Embedding of `QueryDecomposer._decompose_causal`. -/
def decompose_causal (query : String) (entities : List String) : List String :=
  match entities with
  | effect :: cause :: _ =>
    ["What causes " ++ effect ++ "?",
     "What is the relationship between " ++ effect ++ " and " ++ cause ++ "?"]
  | _ => []

/-- Embedding of `QueryDecomposer._decompose_temporal`. -/
def decompose_temporal (query : String) (entities : List String) : List String :=
  match entities with
  | entity :: _ =>
    ["What are the symptoms of " ++ entity ++ "?",
     "What is the timeline of " ++ entity ++ " symptoms?"]
  | [] => []

/-- Embedding of `QueryDecomposer._decompose_multi_part`. -/
def decompose_multi_part (query : String) (entities : List String) : List String :=
  match entities with
  | [] => []
  | entity :: _ =>
    let q := (pyLower query)
    let aspects :=
      (if pySubstr "symptoms" q then ["symptoms"] else []) ++
      (if pySubstr "causes" q then ["causes"] else []) ++
      (if pySubstr "treatments" q then ["treatments"] else [])
    let base := (aspects.map (fun aspect =>
      if aspect == "symptoms" then ["What are the symptoms of " ++ entity ++ "?"]
      else if aspect == "causes" then ["What are the causes of " ++ entity ++ "?"]
      else if aspect == "treatments" then ["What are the treatments for " ++ entity ++ "?"]
      else [])).flatten
    let comp :=
      if pySubstr "vs" q || pySubstr "compared" q then
        let parts := pySplitOnStr (if pySubstr "vs" q then "vs" else "compared") q
        if parts.length == 2 then
          (parts.map pyStrip).map (fun group =>
            "What are the symptoms of " ++ entity ++ " in " ++ group ++ "?")
        else []
      else []
    base ++ comp

/-- Successful interpretation as consumed by the decomposer (the
`query_type` and `entities` fields of the interpretation dictionary). -/
structure Interp where
  query_type : String
  entities : List String
deriving DecidableEq, Repr

/-- Result dictionary of `QueryDecomposer.decompose`. -/
structure DecompositionResult where
  is_complex : Bool
  sub_questions : List String
  original_query : String
deriving DecidableEq, Repr

/-- Comparison and causal lexical markers of the decomposer short-circuit. -/
def decomposer_markers : List String := ["vs", "compared", "because", "when", "how long"]

/-- Aspect keywords counted by the decomposer short-circuit. -/
def decomposer_keywords : List String := ["symptoms", "causes", "treatments"]

/-- Embedding of `QueryDecomposer.decompose`; the interpreter dependency
is passed as a function from queries to successful interpretations. -/
def decompose (interpretF : String → Interp) (query : String) : DecompositionResult :=
  if query.isEmpty || (pyStrip query).isEmpty then
    ⟨false, [], query⟩
  else
    let interpretation := interpretF query
    if interpretation.query_type == "factual" &&
        interpretation.entities.length == 1 &&
        !(decomposer_markers.any (fun w => pySubstr w (pyLower query))) &&
        decide ((decomposer_keywords.filter (fun w => pySubstr w (pyLower query))).length ≤ 1) then
      ⟨false, [query], query⟩
    else
      let subQuestions :=
        if interpretation.query_type == "comparative" then
          decompose_comparative query interpretation.entities
        else if interpretation.query_type == "causal" then
          decompose_causal query interpretation.entities
        else if interpretation.query_type == "temporal" then
          decompose_temporal query interpretation.entities
        else if decide (interpretation.entities.length > 1) ||
            (["vs", "compared"].any (fun w => pySubstr w (pyLower query))) ||
            decide ((decomposer_keywords.filter (fun w => pySubstr w (pyLower query))).length > 1) then
          decompose_multi_part query interpretation.entities
        else []
      ⟨decide (subQuestions.length > 1),
       if subQuestions.isEmpty then [query] else subQuestions,
       query⟩

/-- Item of the renderer's `results` list; only its `text` key is read
(`item.get('text', '')`), and the key may be absent. -/
structure RenderItem where
  textVal : Option String
deriving DecidableEq, Repr

/-- Input dictionary of `TextRenderer.render`; every key may be absent.
`RetrievalAgent`'s error dictionaries carry `status`, `knowledge` and
`error` and no `results` key. -/
structure RenderInput where
  status : Option String
  results : Option (List RenderItem)
  confidence : Option ℚ
  sources : Option (List String)
  query : Option String
  knowledge : Option String
  errorDetail : Option String
deriving DecidableEq, Repr

/-- Embedding of `TextRenderer._generate_response_text`. -/
def generate_response_text (retrievedItems : List RenderItem) : String :=
  match retrievedItems with
  | [] => "I\x27m sorry, I couldn\x27t find any specific information on that topic."
  | top :: rest =>
    let response := top.textVal.getD ""
    match rest with
    | [] => response
    | second :: _ =>
      let secondText := second.textVal.getD ""
      if secondText != "" && decide (secondText.length > 20) && secondText != response then
        response ++ "\n\nAdditionally: " ++ secondText
      else response

/-- Embedding of `TextRenderer._format_sources`. -/
def format_sources (sources : List String) : String :=
  if sources.isEmpty then ""
  else "\n\nSources:" ++ String.join (sources.map (fun src => "\n- " ++ src))

/-- Embedding of `TextRenderer.render` (the unused `context` argument is
dropped). -/
def render (results : RenderInput) : String :=
  let retrievedItems := results.results.getD []
  let confidence := results.confidence.getD 0
  let sources := results.sources.getD []
  if retrievedItems.isEmpty then
    "I\x27m sorry, I couldn\x27t find any information on that topic."
  else
    let responseText := generate_response_text retrievedItems
    let withSources :=
      if !sources.isEmpty then responseText ++ format_sources sources else responseText
    if confidence < (7 / 10 : ℚ) then
      withSources ++
        "\n\nNote: I\x27m not entirely confident in this answer. You may want to verify this information."
    else withSources

/-- Stop-word list of `RetrievalAgent._extract_entities`. -/
def common_words : List String :=
  ["what", "how", "when", "where", "why", "who", "which", "is", "are", "was", "were",
   "the", "a", "an", "and", "or", "but", "in", "on", "at", "to", "for", "with", "by",
   "about", "like", "as", "if", "then", "than", "that", "this", "these", "those",
   "my", "your", "his", "her", "its", "our", "their", "can", "could", "will", "would",
   "should", "may", "might", "must", "have", "has", "had", "do", "does", "did",
   "tell", "me", "show", "give", "find", "search", "look", "up", "information", "about"]

/-- Python `s.split()` with no argument: split on whitespace runs,
discarding empty pieces. -/
def pySplitWs (s : String) : List String :=
  (s.split Char.isWhitespace).filter (fun w => !w.isEmpty)

/-- Embedding of `RetrievalAgent._extract_entities`. -/
def retrieval_extract_entities (query : String) : List String :=
  let words := pySplitWs (pyLower query)
  let entities := words.filter (fun w => !(common_words.contains (pyLower w)))
  if entities.isEmpty then [(pyLower query)] else entities

/-- Embedding of `RetrievalAgent._determine_intent` (`None` becomes
`Option.none`). -/
def determine_intent (query : String) : Option String :=
  let q := (pyLower query)
  if ["treat", "treatment", "medicine", "medication"].any (fun w => pySubstr w q) then
    some "treatment"
  else if ["symptom", "sign", "manifestation"].any (fun w => pySubstr w q) then
    some "symptoms"
  else if ["diagnose", "diagnosis", "cause", "why"].any (fun w => pySubstr w q) then
    some "diagnosis"
  else if ["prevent", "prevention", "avoid"].any (fun w => pySubstr w q) then
    some "prevention"
  else none

/-- Regex disjunction of the entities, as interpolated into the Cypher
text (`"|".join(entities)`). -/
def entity_pattern_of (entities : List String) : String :=
  String.intercalate "|" entities

/-- Name-matching block shared by the Cypher templates (the `base_query`
f-string). -/
def cypher_base_query (ep : String) : String :=
  "\n        MATCH (d:Disease)\n        WHERE d.name =~ \x27(?i).*(" ++ ep ++
  ").*\x27 \n           OR d.name =~ \x27(?i)(" ++ ep ++
  ").*\x27\n           OR d.name =~ \x27(?i).*(" ++ ep ++
  ")\x27\n           OR d.name =~ \x27(?i)(" ++ ep ++ ")\x27\n        "

/-- Relationship block of the symptoms / diagnosis / prevention Cypher
templates, parameterized by the relationship name, node label and node
variable. -/
def cypher_relation_block (ep rel lbl v : String) : String :=
  "\n            OPTIONAL MATCH (d)-[:" ++ rel ++ "]->(" ++ v ++ ":" ++ lbl ++
  ")\n            WHERE " ++ v ++ ".name =~ \x27(?i).*(" ++ ep ++ ").*\x27 OR " ++ v ++
  ".description =~ \x27(?i).*(" ++ ep ++
  ").*\x27\n            RETURN d.name as disease, d.description as description, \n                   \x27" ++
  rel ++ "\x27 as relationship, " ++ v ++ ".name as related_node, " ++ v ++
  ".description as related_description\n            UNION\n            MATCH (" ++ v ++
  ":" ++ lbl ++ ")\n            WHERE " ++ v ++ ".name =~ \x27(?i).*(" ++ ep ++
  ").*\x27 OR " ++ v ++ ".description =~ \x27(?i).*(" ++ ep ++
  ").*\x27\n            OPTIONAL MATCH (d:Disease)-[:" ++ rel ++ "]->(" ++ v ++
  ")\n            RETURN d.name as disease, d.description as description, \n                   \x27" ++
  rel ++ "\x27 as relationship, " ++ v ++ ".name as related_node, " ++ v ++
  ".description as related_description\n            LIMIT 10\n            "

/-- Embedding of `RetrievalAgent._construct_cypher_query`. -/
def construct_cypher_query (entities : List String) (intent : Option String) : String :=
  match entities with
  | [] => "MATCH (n) RETURN n LIMIT 5"
  | e0 :: _ =>
    let ep := entity_pattern_of entities
    if intent == some "treatment" then
      "\n            // Find the most similar disease first\n            MATCH (d:Disease)\n            WITH d, apoc.text.levenshteinSimilarity(toLower(d.name), toLower(\x27" ++
      e0 ++
      "\x27)) as similarity\n            ORDER BY similarity DESC\n            LIMIT 1\n            \n            // Then get its treatments\n            MATCH (d)-[:TREATED_BY]->(t:Treatment)\n            WITH d, COLLECT(\x7b\n                name: t.name,\n                description: t.description\n            \x7d) as treatments\n            \n            // Return the disease and its treatments\n            RETURN d.name as disease,\n                   d.description as description,\n                   treatments\n            "
    else if intent == some "symptoms" then
      "\n            " ++ cypher_base_query ep ++ cypher_relation_block ep "HAS_SYMPTOM" "Symptom" "s"
    else if intent == some "diagnosis" then
      "\n            " ++ cypher_base_query ep ++ cypher_relation_block ep "HAS_DIAGNOSIS" "Diagnosis" "diag"
    else if intent == some "prevention" then
      "\n            " ++ cypher_base_query ep ++ cypher_relation_block ep "HAS_PREVENTION" "Prevention" "p"
    else
      "\n            " ++ cypher_base_query ep ++
      "\n            OPTIONAL MATCH (d)-[r]->(n)\n            WHERE n.name =~ \x27(?i).*(" ++ ep ++
      ").*\x27 OR n.description =~ \x27(?i).*(" ++ ep ++
      ").*\x27\n            RETURN d.name as disease, d.description as description,\n                   type(r) as relationship, n.name as related_node, n.description as related_description\n            UNION\n            MATCH (n)\n            WHERE n.name =~ \x27(?i).*(" ++ ep ++
      ").*\x27 OR n.description =~ \x27(?i).*(" ++ ep ++
      ").*\x27\n            OPTIONAL MATCH (d:Disease)-[r]->(n)\n            RETURN d.name as disease, d.description as description,\n                   type(r) as relationship, n.name as related_node, n.description as related_description\n            LIMIT 15\n            "

/-- Hit returned by the vector-store capability; every field is read with
`.get(...)` in the source and so may be absent. -/
structure VecResult where
  content : Option String
  metadata : Option (List (String × String))
  score : Option ℚ
deriving DecidableEq, Repr

/-- Fused record built by `retrieve` from a vector or graph hit. -/
structure CombinedRec where
  source : String
  content : String
  metadata : List (String × String)
  score : ℚ
deriving DecidableEq, Repr

/-- Value of the `knowledge` key of a retrieval result: either a
human-readable message or the fused record list. -/
inductive Knowledge where
  | msg (s : String)
  | recs (rs : List CombinedRec)
deriving DecidableEq, Repr

/-- Result dictionary of `RetrievalAgent.retrieve`; `errorDetail` models
the `error` key, present only on the error path. -/
structure RetrieveResult where
  status : String
  knowledge : Knowledge
  sources : List String
  errorDetail : Option String
deriving DecidableEq, Repr

/-- External capabilities used by `retrieve`: the sentence-transformer
encoder, the Qdrant client and the Neo4j client. Fallible calls return
`Except String`; a connection check is a plain flag. -/
structure RetrieveEnv where
  encode : String → Except String (List ℚ)
  qdrant_connected : Bool
  qdrant_search : List ℚ → Nat → ℚ → Except String (List VecResult)
  neo4j_connected : Bool
  neo4j_query : String → Except String (List String)

/-- Per-entity retry loop of `retrieve`: encode each entity and union the
per-entity vector hits; a raised exception aborts the whole `try` body. -/
def entity_retry_loop (env : RetrieveEnv) : List String → Except String (List VecResult)
  | [] => .ok []
  | entity :: rest =>
    match env.encode entity with
    | .error e => .error e
    | .ok ev =>
      match env.qdrant_search ev 3 (1 / 2) with
      | .error e => .error e
      | .ok er =>
        match entity_retry_loop env rest with
        | .error e => .error e
        | .ok more => .ok (er ++ more)

/-- Vector-search phase of `retrieve`: full-query search with limit 5 and
threshold 0.5, retried per entity when empty; skipped when Qdrant is not
connected. -/
def get_vector_results (env : RetrieveEnv) (entities : List String)
    (queryVector : List ℚ) : Except String (List VecResult) :=
  if env.qdrant_connected then
    match env.qdrant_search queryVector 5 (1 / 2) with
    | .error e => .error e
    | .ok vr =>
      if vr.isEmpty && !entities.isEmpty then entity_retry_loop env entities
      else .ok vr
  else .ok []

/-- Graph-search phase of `retrieve`: construct and execute the Cypher
query; skipped when Neo4j is not connected. Each returned record is
modelled by its stringification `str(result)`. -/
def get_graph_results (env : RetrieveEnv) (query : String)
    (entities : List String) : Except String (List String) :=
  if env.neo4j_connected then
    env.neo4j_query (construct_cypher_query entities (determine_intent query))
  else .ok []

/-- Stable descending sort by score
(`combined_results.sort(key=lambda x: x["score"], reverse=True)`). -/
def pySortByScoreDesc (l : List CombinedRec) : List CombinedRec :=
  l.mergeSort (fun a b => b.score ≤ a.score)

/-- Body of the `try` block of `RetrievalAgent.retrieve`. -/
def retrieve_body (env : RetrieveEnv) (query : String) : Except String RetrieveResult :=
  let entities := retrieval_extract_entities query
  match env.encode query with
  | .error e => .error e
  | .ok queryVector =>
    match get_vector_results env entities queryVector with
    | .error e => .error e
    | .ok vectorResults =>
      match get_graph_results env query entities with
      | .error e => .error e
      | .ok graphResults =>
        let combinedResults :=
          vectorResults.map (fun r =>
            CombinedRec.mk "vector" (r.content.getD "") (r.metadata.getD []) (r.score.getD 0)) ++
          graphResults.map (fun g => CombinedRec.mk "graph" g [] (4 / 5))
        let sources :=
          (if !vectorResults.isEmpty then ["vector"] else []) ++
          (if !graphResults.isEmpty then ["graph"] else [])
        let sorted := pySortByScoreDesc combinedResults
        if sorted.isEmpty then
          .ok ⟨"success",
            .msg ("I couldn\x27t find specific information about that in my knowledge base. " ++
              "Could you please rephrase your question or provide more details?"),
            sources, none⟩
        else
          .ok ⟨"success", .recs (sorted.take 10), sources, none⟩

/-- Embedding of `RetrievalAgent.retrieve`: the whole body runs inside
`try/except Exception`, so every internal failure is converted to the
error dictionary. -/
def retrieve (env : RetrieveEnv) (query : String) : RetrieveResult :=
  match retrieve_body env query with
  | .ok r => r
  | .error e => ⟨"error", .msg "Error retrieving information", [], some e⟩

/-- Record as consumed by `_calculate_confidence`: only the presence and
value of its `score` key matter. -/
structure ScoredRec where
  score : Option ℚ
deriving DecidableEq, Repr

/-- Embedding of `RetrievalAgent._calculate_confidence`. -/
def calculate_confidence (results : List ScoredRec) : ℚ :=
  if results.isEmpty then 0
  else
    let topResults := results.take 3
    let scores := topResults.filterMap (fun r => r.score)
    if scores.isEmpty then 3 / 10
    else scores.sum / (scores.length : ℚ)

/-- Python truthiness of a stored value. -/
def pyTruthy : PyVal → Bool
  | .s v => !v.isEmpty
  | .strList vs => !vs.isEmpty
  | .raw q => !q.falsy

/-- Dictionary `d.get(k, default)` for a boolean default, evaluated with
Python truthiness. -/
def pyGetBoolD (d : List (String × PyVal)) (k : String) (dflt : Bool) : Bool :=
  match pyLookup k d with
  | none => dflt
  | some v => pyTruthy v

/-- Result dictionary of `Orchestrator.process_query`; `originalQuery`
models the `metadata.original_query` entry of the success paths. -/
structure OrcResult where
  status : String
  response : String
  originalQuery : Option String
  errorDetail : Option String
deriving DecidableEq, Repr

/-- Fan-out loop of the complex branch of `process_query`: retrieve each
sub-query, collecting the formatted responses whose status is
"success"; an exception aborts the loop. The second component counts the
`retrieve` calls that were made. -/
def retrieve_loop (retrieveF : String → Except String RetrieveResult)
    (formatResponse : RetrieveResult → String) :
    List String → Except String (List String) × Nat
  | [] => (.ok [], 0)
  | sq :: rest =>
    match retrieveF sq with
    | .error e => (.error e, 1)
    | .ok knowledge =>
      match retrieve_loop retrieveF formatResponse rest with
      | (.error e, n) => (.error e, n + 1)
      | (.ok responses, n) =>
        (.ok (if knowledge.status == "success" then
            formatResponse knowledge :: responses
          else responses), n + 1)

/-- Embedding of `Orchestrator.process_query`, instrumented with a count
of the `RetrievalAgent.retrieve` calls made. The collaborators are
oracles: `decomposeQueryF` models the (nonexistent, hence raising)
`query_interpreter.decompose_query` attribute access, `retrieveF` the
retrieval agent, and `formatResponse` the `_format_response` helper
(whose `eval` of stringified content is an external effect). -/
def process_query (nlp : String → Except String Doc)
    (decomposeQueryF : String → Except String (List String))
    (retrieveF : String → Except String RetrieveResult)
    (formatResponse : RetrieveResult → String)
    (query : String) : OrcResult × Nat :=
  let interpretation := interpret nlp (.str query)
  if pyGetBoolD interpretation "is_complex" false then
    match decomposeQueryF query with
    | .error e => (⟨"error", "Error processing query", none, some e⟩, 0)
    | .ok subQueries =>
      match retrieve_loop retrieveF formatResponse subQueries with
      | (.error e, n) => (⟨"error", "Error processing query", none, some e⟩, n)
      | (.ok responses, n) =>
        (⟨"success", String.intercalate "\n\n" responses, some query, none⟩, n)
  else
    match retrieveF query with
    | .error e => (⟨"error", "Error processing query", none, some e⟩, 1)
    | .ok knowledge =>
      if knowledge.status == "success" then
        (⟨"success", formatResponse knowledge, some query, none⟩, 1)
      else
        (⟨"error", "Error processing query", none,
          some (knowledge.errorDetail.getD "Unknown error")⟩, 1)

/-!
Specification-side predicates and concrete example values used by the
claim theorems, their witnesses and counterexamples.
-/

/-- Modelled from the spec wording of the causal classification rule: a
subordinating-conjunction ("mark") dependency for "because"/"since"/"as",
or lexical presence of "because", "since", "due to", "caused by" or
"why". Used to compare the specified precedence against the code. -/
def spec_causal_cond (doc : Doc) : Bool :=
  mark_causal_cond doc ||
  ["because", "since", "due to", "caused by", "why"].any
    (fun w => pySubstr w (pyLower doc.text))

/-- Parse of "What causes fever because of infection?" (scenario 3 of the
spec); "because of" is a prepositional construction, so "because" does
not carry the "mark" dependency here. -/
def doc6 : Doc :=
  { tokens := [⟨"What", "nsubj", "causes"⟩, ⟨"causes", "ROOT", "causes"⟩,
               ⟨"fever", "dobj", "causes"⟩, ⟨"because", "prep", "causes"⟩,
               ⟨"of", "pcomp", "because"⟩, ⟨"infection", "pobj", "of"⟩,
               ⟨"?", "punct", "causes"⟩],
    ents := [],
    text := "What causes fever because of infection?" }

/-- Scenario-3 input query. -/
def q6 : String := "What causes fever because of infection?"

/-- Interpreter returning the embedded interpretation of `doc6`. -/
def itp6 : String → Interp :=
  fun _ => ⟨determine_query_type doc6, extract_entities doc6⟩

/-- Parse of "Why do symptoms worsen when sleeping?": it satisfies the
lexical causal condition (the word "why") and the temporal condition
(adverbial "when"), but not the comparative or "mark"-causal ones. -/
def cDoc : Doc :=
  { tokens := [⟨"Why", "advmod", "worsen"⟩, ⟨"do", "aux", "worsen"⟩,
               ⟨"symptoms", "nsubj", "worsen"⟩, ⟨"worsen", "ROOT", "worsen"⟩,
               ⟨"when", "advmod", "sleeping"⟩, ⟨"sleeping", "advcl", "worsen"⟩,
               ⟨"?", "punct", "worsen"⟩],
    ents := [],
    text := "Why do symptoms worsen when sleeping?" }

/-- Parse of "When do symptoms worsen because of stress?": it satisfies
both the "mark"-causal condition and the temporal condition. -/
def mDoc : Doc :=
  { tokens := [⟨"When", "advmod", "worsen"⟩, ⟨"do", "aux", "worsen"⟩,
               ⟨"symptoms", "nsubj", "worsen"⟩, ⟨"worsen", "ROOT", "worsen"⟩,
               ⟨"because", "mark", "worsen"⟩, ⟨"of", "prep", "because"⟩,
               ⟨"stress", "pobj", "of"⟩, ⟨"?", "punct", "worsen"⟩],
    ents := [],
    text := "When do symptoms worsen because of stress?" }

/-- Parse of "What is diabetes?". -/
def docDiabetes : Doc :=
  { tokens := [⟨"What", "attr", "is"⟩, ⟨"is", "ROOT", "is"⟩,
               ⟨"diabetes", "nsubj", "is"⟩, ⟨"?", "punct", "is"⟩],
    ents := [],
    text := "What is diabetes?" }

/-- NLP oracle that parses every query to `docDiabetes`. -/
def nlpDiabetes : String → Except String Doc := fun _ => .ok docDiabetes

/-- Interpreter stub returning a factual interpretation with one entity. -/
def itpFactualFlu : String → Interp := fun _ => ⟨"factual", ["flu"]⟩

/-- Interpreter stub matching the interpretation of "What is diabetes?". -/
def itpDiabetes : String → Interp := fun _ => ⟨"factual", ["diabetes"]⟩

/-- Error dictionary produced by `RetrievalAgent.retrieve` on an internal
failure with detail "boom", as seen by the renderer: status "error",
knowledge message, error detail, and no `results` key. -/
def render_error_input : RenderInput :=
  ⟨some "error", none, none, none, none, some "Error retrieving information", some "boom"⟩

/-- Parse of "Fever fever flu": produces case-duplicated entity
candidates before deduplication. -/
def docDup : Doc :=
  { tokens := [⟨"Fever", "nsubj", "flu"⟩, ⟨"fever", "amod", "flu"⟩,
               ⟨"flu", "ROOT", "flu"⟩],
    ents := [],
    text := "Fever fever flu" }

/-- NLP oracle that parses every query to `docDup`. -/
def nlpDup : String → Except String Doc := fun _ => .ok docDup

/-- Oracle for the missing `decompose_query` attribute: accessing it
raises. -/
def exDq : String → Except String (List String) :=
  fun _ => .error "AttributeError: decompose_query"

/-- Retrieval oracle returning a fixed successful result. -/
def exRt : String → Except String RetrieveResult :=
  fun _ => .ok ⟨"success", .msg "ok", [], none⟩

/-- Response-formatting oracle. -/
def exFmt : RetrieveResult → String := fun _ => "formatted"

/-!
Claim theorems.
-/

/-- C1 (amended): query-type classification is the cascade comparative →
dependency-marked causal → temporal → lexical causal → factual. A query
matching the "mark"-dependency causal condition and not the comparative
condition is classified causal even when the temporal condition also
holds; but a query matching only the lexical causal condition together
with the temporal condition is classified temporal, and the lexical
causal rule fires only after the temporal rule has failed. -/
theorem query_type_precedence (doc : Doc) :
    (comparative_cond doc = false → mark_causal_cond doc = true →
      determine_query_type doc = "causal") ∧
    (comparative_cond doc = false → mark_causal_cond doc = false →
      temporal_cond doc = true → determine_query_type doc = "temporal") ∧
    (comparative_cond doc = false → mark_causal_cond doc = false →
      temporal_cond doc = false → lexical_causal_cond doc = true →
      determine_query_type doc = "causal") := by
  unfold comparative_cond mark_causal_cond temporal_cond lexical_causal_cond
    determine_query_type
  refine ⟨fun h1 h2 => ?_, fun h1 h2 h3 => ?_, fun h1 h2 h3 h4 => ?_⟩
  · simp only [h1, h2]
    simp
  · simp only [h1, h2, h3]
    simp
  · simp only [h1, h2, h3, h4]
    simp

/-- C1 (witness): the amended precedence evaluated on concrete parses:
"mark"-causal beats temporal on `mDoc`, temporal beats lexical causal on
`cDoc`, and lexical causal fires on `doc6` once temporal has failed. -/
theorem query_type_precedence_witness :
    determine_query_type mDoc = "causal" ∧
    determine_query_type cDoc = "temporal" ∧
    determine_query_type doc6 = "causal" :=
  ⟨(query_type_precedence mDoc).1 rfl rfl,
   (query_type_precedence cDoc).2.1 rfl rfl rfl,
   (query_type_precedence doc6).2.2 rfl rfl rfl rfl⟩

/-- C1 (counterexample): the parse `cDoc` of "Why do symptoms worsen when
sleeping?" satisfies the claim's causal condition (lexical "why") and not
its comparative condition, yet the code classifies it "temporal", not
"causal" — the lexical causal check runs after the temporal check. -/
theorem query_type_precedence_counterexample :
    spec_causal_cond cDoc = true ∧
    comparative_cond cDoc = false ∧
    determine_query_type cDoc = "temporal" ∧
    determine_query_type cDoc ≠ "causal" :=
  ⟨rfl, rfl, rfl, by decide⟩

/-- Fallback of the decomposer's result construction: the sub-question
field is the generated list, or the singleton query when none were
generated, and is never empty. -/
theorem sub_questions_fallback_ne_nil (c : Bool) (subs : List String) (q : String) :
    (DecompositionResult.mk c (if subs.isEmpty then [q] else subs) q).sub_questions ≠ [] := by
  dsimp only
  split
  · simp
  · next hs => simpa using hs

/-- C2 (amended): for every query that is non-empty and not
whitespace-only, `decompose` returns a non-empty `sub_questions` list,
falling back to the singleton original query when no sub-questions were
generated; the empty/whitespace guard instead returns an empty list. -/
theorem decompose_sub_questions_nonempty (itp : String → Interp) (q : String)
    (h : (q.isEmpty || (pyStrip q).isEmpty) = false) :
    (decompose itp q).sub_questions ≠ [] := by
  simp only [decompose, h, Bool.false_eq_true, if_false]
  split
  · simp
  · exact sub_questions_fallback_ne_nil _ _ _

/-- C2 (witness): the amended non-emptiness at the concrete query "What
is flu?". -/
theorem decompose_sub_questions_nonempty_witness :
    (decompose itpFactualFlu "What is flu?").sub_questions ≠ [] :=
  decompose_sub_questions_nonempty itpFactualFlu "What is flu?" (by decide)

/-- C2 (counterexample): on the empty input the decomposer returns an
empty `sub_questions` list, not the singleton fallback. -/
theorem decompose_empty_input_no_sub_questions :
    (decompose itpFactualFlu "").sub_questions = [] := rfl

/-- C3 (amended): for every retrieval result whose status is "error" —
such results carry no `results` key — `render` returns the fixed
apologetic not-found message, which does not include the error detail. -/
theorem render_error_fixed_message (inp : RenderInput)
    (hs : inp.status = some "error") (hr : inp.results = none) :
    render inp = "I\x27m sorry, I couldn\x27t find any information on that topic." := by
  simp [render, hr]

/-- C3 (witness): the amended statement at the concrete error dictionary
with detail "boom". -/
theorem render_error_fixed_message_witness :
    render render_error_input =
      "I\x27m sorry, I couldn\x27t find any information on that topic." :=
  render_error_fixed_message render_error_input rfl rfl

/-- C3 (counterexample): on the error dictionary with detail "boom" the
renderer's output is the fixed apology and does not contain the error
detail, refuting the claim that the message includes it. -/
theorem render_error_detail_not_included :
    render_error_input.status = some "error" ∧
    render render_error_input =
      "I\x27m sorry, I couldn\x27t find any information on that topic." ∧
    pySubstr "boom" (render render_error_input) = false :=
  ⟨rfl, rfl, rfl⟩

/-- C5: a query interpreted as factual with exactly one entity, no
comparison/causal markers and at most one aspect keyword short-circuits
to a non-complex result whose sub-questions are the original query. -/
theorem decompose_factual_single_entity (itp : String → Interp) (q : String)
    (hq : (q.isEmpty || (pyStrip q).isEmpty) = false)
    (ht : (itp q).query_type = "factual")
    (he : (itp q).entities.length = 1)
    (hm : decomposer_markers.any (fun w => pySubstr w (pyLower q)) = false)
    (hk : (decomposer_keywords.filter (fun w => pySubstr w (pyLower q))).length ≤ 1) :
    decompose itp q = ⟨false, [q], q⟩ := by
  simp [decompose, hq, ht, he, hm, decide_eq_true hk]

/-- C5 (witness): the short-circuit at the concrete query "What is
diabetes?" with its factual single-entity interpretation. -/
theorem decompose_factual_single_entity_witness :
    decompose itpDiabetes "What is diabetes?" =
      ⟨false, ["What is diabetes?"], "What is diabetes?"⟩ :=
  decompose_factual_single_entity itpDiabetes "What is diabetes?"
    (by decide) rfl rfl (by decide) (by decide)

/-- C6: a query interpreted as causal with at least two entities
decomposes to exactly the two templated sub-questions about the first
two entities, in order. -/
theorem decompose_causal_two_entities (itp : String → Interp) (q : String)
    (hq : (q.isEmpty || (pyStrip q).isEmpty) = false)
    (ht : (itp q).query_type = "causal")
    (e0 e1 : String) (rest : List String)
    (he : (itp q).entities = e0 :: e1 :: rest) :
    (decompose itp q).sub_questions =
      ["What causes " ++ e0 ++ "?",
       "What is the relationship between " ++ e0 ++ " and " ++ e1 ++ "?"] := by
  simp [decompose, hq, ht, he, decompose_causal]

/-- C6 (witness): the scenario-3 input "What causes fever because of
infection?" run through the embedded pipeline decomposes to exactly the
two expected sub-questions. -/
theorem decompose_causal_two_entities_witness :
    (decompose itp6 q6).sub_questions =
      ["What causes fever?", "What is the relationship between fever and infection?"] := by
  have h := decompose_causal_two_entities itp6 q6 (by decide) rfl "fever" "infection" [] rfl
  rw [h]
  decide

/-- C9: on empty or non-string input, `interpret` returns a dictionary
carrying an `error` key (and, being a total function of its oracles,
never raises). -/
theorem interpret_error_on_bad_input (nlp : String → Except String Doc) (q : PyInput)
    (h : q = .str "" ∨ ∃ t ty, q = .nonStr t ty) :
    ∃ v, pyLookup "error" (interpret nlp q) = some v := by
  rcases h with rfl | ⟨t, ty, rfl⟩
  · exact ⟨.s "Empty query provided", rfl⟩
  · cases t
    · exact ⟨.s "Empty query provided", rfl⟩
    · exact ⟨.s ("Invalid query type: " ++ ty), rfl⟩

/-- C9 (witness): the error key at the concrete empty string and at a
concrete truthy non-string input. -/
theorem interpret_error_on_bad_input_witness :
    (∃ v, pyLookup "error" (interpret nlpDiabetes (.str "")) = some v) ∧
    (∃ v, pyLookup "error" (interpret nlpDiabetes (.nonStr true "int")) = some v) :=
  ⟨interpret_error_on_bad_input nlpDiabetes (.str "") (Or.inl rfl),
   interpret_error_on_bad_input nlpDiabetes (.nonStr true "int") (Or.inr ⟨true, "int", rfl⟩)⟩

/-- Membership in the deduplication loop: a kept entity's lowercasing was
not in the seen set, and every earlier occurrence of the same lowercasing
in the remaining input was already seen at call time. -/
theorem mem_dedup_ci_go (l : List String) : ∀ (seen : List String) (y : String),
    y ∈ dedup_ci_go seen l →
    seen.contains (pyLower y) = false ∧
    ∃ l₁ l₂, l = l₁ ++ y :: l₂ ∧
      ∀ x ∈ l₁, pyLower x = pyLower y → seen.contains (pyLower x) = true := by
  induction l with
  | nil => intro seen y hy; simp [dedup_ci_go] at hy
  | cons e rest ih =>
    intro seen y hy
    simp only [dedup_ci_go] at hy
    by_cases hc : seen.contains (pyLower e) = true
    · rw [if_pos hc] at hy
      obtain ⟨h1, l₁, l₂, hdec, hprev⟩ := ih seen y hy
      refine ⟨h1, e :: l₁, l₂, by rw [hdec]; rfl, ?_⟩
      intro x hx hlow
      rcases List.mem_cons.mp hx with rfl | hx2
      · exact hc
      · exact hprev x hx2 hlow
    · rw [if_neg hc] at hy
      rcases List.mem_cons.mp hy with rfl | hy2
      · exact ⟨Bool.eq_false_iff.mpr hc, [], rest, rfl, by intro x hx; simp at hx⟩
      · obtain ⟨h1, l₁, l₂, hdec, hprev⟩ := ih (pyLower e :: seen) y hy2
        rw [List.contains_cons, Bool.or_eq_false_iff] at h1
        obtain ⟨hne, hseen⟩ := h1
        have hneq : pyLower y ≠ pyLower e := by
          intro hEq
          rw [hEq] at hne
          simp at hne
        refine ⟨hseen, e :: l₁, l₂, by rw [hdec]; rfl, ?_⟩
        intro x hx hlow
        rcases List.mem_cons.mp hx with rfl | hx2
        · exact absurd hlow (by rw [hlow] at hneq ⊢ <;> exact fun h2 => hneq h2.symm)
        · have h3 := hprev x hx2 hlow
          rw [List.contains_cons] at h3
          rcases Bool.or_eq_true_iff.mp h3 with h4 | h4
          · exfalso
            exact hneq (by rw [← hlow]; exact eq_of_beq h4)
          · exact h4

/-- Every element of the deduplication loop's output comes from its
input, in order. -/
theorem dedup_ci_go_sublist (l : List String) :
    ∀ seen : List String, (dedup_ci_go seen l).Sublist l := by
  induction l with
  | nil => intro seen; simp [dedup_ci_go]
  | cons e rest ih =>
    intro seen
    simp only [dedup_ci_go]
    split
    · exact (ih seen).trans (List.sublist_cons_self e rest)
    · exact (ih (pyLower e :: seen)).cons₂ e

/-- No two elements of the deduplication loop's output share a
lowercasing. -/
theorem dedup_ci_go_pairwise (l : List String) :
    ∀ seen : List String,
      (dedup_ci_go seen l).Pairwise (fun a b => pyLower a ≠ pyLower b) := by
  induction l with
  | nil => intro seen; simp [dedup_ci_go]
  | cons e rest ih =>
    intro seen
    simp only [dedup_ci_go]
    split
    · exact ih seen
    · refine List.Pairwise.cons ?_ (ih (pyLower e :: seen))
      intro b hb
      have h1 := (mem_dedup_ci_go rest (pyLower e :: seen) b hb).1
      rw [List.contains_cons, Bool.or_eq_false_iff] at h1
      intro hEq
      rw [hEq] at h1
      simp at h1

/-- Every lowercasing present in the input and not yet seen is
represented in the deduplication loop's output. -/
theorem dedup_ci_go_covers (l : List String) :
    ∀ (seen : List String) (x : String), x ∈ l →
      seen.contains (pyLower x) = false →
      ∃ y ∈ dedup_ci_go seen l, pyLower y = pyLower x := by
  induction l with
  | nil => intro seen x hx; simp at hx
  | cons e rest ih =>
    intro seen x hx hseen
    simp only [dedup_ci_go]
    by_cases hc : seen.contains (pyLower e) = true
    · rw [if_pos hc]
      rcases List.mem_cons.mp hx with rfl | hx2
      · rw [hseen] at hc; exact absurd hc (by simp)
      · exact ih seen x hx2 hseen
    · rw [if_neg hc]
      rcases List.mem_cons.mp hx with rfl | hx2
      · exact ⟨x, List.mem_cons_self x _, rfl⟩
      · by_cases he : pyLower x = pyLower e
        · exact ⟨e, List.mem_cons_self e _, he.symm⟩
        · have hns : (pyLower e :: seen).contains (pyLower x) = false := by
            rw [List.contains_cons, Bool.or_eq_false_iff]
            exact ⟨by simpa using he, hseen⟩
          obtain ⟨y, hy, hyx⟩ := ih (pyLower e :: seen) x hx2 hns
          exact ⟨y, List.mem_cons_of_mem e hy, hyx⟩

/-- C10: the entity list of a successful interpretation is the
case-insensitive deduplication of the collected candidates: no two kept
entities share a lowercasing, the kept entities are a subsequence of the
candidates (hence first-seen order with original surface casing), every
candidate's lowercasing is represented, and each kept entity is the first
candidate with its lowercasing. -/
theorem entities_dedup_spec (nlp : String → Except String Doc) (q : String) (doc : Doc)
    (hn : nlp q = .ok doc) (hq : q.isEmpty = false) :
    pyLookup "entities" (interpret nlp (.str q)) = some (.strList (extract_entities doc)) ∧
    (extract_entities doc).Pairwise (fun a b => pyLower a ≠ pyLower b) ∧
    (extract_entities doc).Sublist (raw_entities doc) ∧
    (∀ x ∈ raw_entities doc, ∃ y ∈ extract_entities doc, pyLower y = pyLower x) ∧
    (∀ y ∈ extract_entities doc, ∃ l₁ l₂, raw_entities doc = l₁ ++ y :: l₂ ∧
      ∀ x ∈ l₁, pyLower x ≠ pyLower y) := by
  refine ⟨?_, ?_, ?_, ?_, ?_⟩
  · simp [interpret, PyInput.falsy, hq, hn, pyLookup]
  · exact dedup_ci_go_pairwise (raw_entities doc) []
  · exact dedup_ci_go_sublist (raw_entities doc) []
  · intro x hx
    exact dedup_ci_go_covers (raw_entities doc) [] x hx rfl
  · intro y hy
    obtain ⟨_, l₁, l₂, hdec, hprev⟩ := mem_dedup_ci_go (raw_entities doc) [] y hy
    refine ⟨l₁, l₂, hdec, ?_⟩
    intro x hx hEq
    have h2 := hprev x hx hEq
    simp at h2

/-- C10 (witness): the deduplication on the concrete parse of "Fever
fever flu", whose candidate list is ["Fever", "fever", "flu"]. -/
theorem entities_dedup_spec_witness :
    pyLookup "entities" (interpret nlpDup (.str "Fever fever flu")) =
      some (.strList ["Fever", "flu"]) ∧
    (extract_entities docDup).Pairwise (fun a b => pyLower a ≠ pyLower b) := by
  obtain ⟨h1, h2, _⟩ := entities_dedup_spec nlpDup "Fever fever flu" docDup rfl rfl
  exact ⟨h1.trans (by decide), h2⟩

/-- C4: any successful interpretation dictionary has exactly the keys
intent, entities, query_type and original_query; no interpretation
result ever carries an `is_complex` key, so `process_query` never enters
its complex fan-out branch and calls `retrieve` at most once. -/
theorem interpret_keys_and_single_retrieve (nlp : String → Except String Doc) (q : String) :
    (∀ doc : Doc, nlp q = .ok doc → q.isEmpty = false →
      (interpret nlp (.str q)).map Prod.fst =
        ["intent", "entities", "query_type", "original_query"]) ∧
    pyLookup "is_complex" (interpret nlp (.str q)) = none ∧
    (∀ dq rt fr, (process_query nlp dq rt fr q).2 ≤ 1) := by
  have hic : pyLookup "is_complex" (interpret nlp (.str q)) = none := by
    unfold interpret
    split
    · rfl
    · dsimp only
      cases hnlp : nlp q with
      | error e => rfl
      | ok doc => rfl
  have hcomplex : pyGetBoolD (interpret nlp (.str q)) "is_complex" false = false := by
    unfold pyGetBoolD
    rw [hic]
  refine ⟨?_, hic, ?_⟩
  · intro doc hdoc hq
    simp [interpret, PyInput.falsy, hq, hdoc]
  · intro dq rt fr
    unfold process_query
    dsimp only
    rw [hcomplex]
    simp only [Bool.false_eq_true, if_false]
    cases rt q with
    | error e => simp
    | ok knowledge =>
      dsimp only
      split <;> simp

/-- C4 (witness): the key list and the single-retrieve bound at the
concrete query "What is diabetes?". -/
theorem interpret_keys_and_single_retrieve_witness :
    (interpret nlpDiabetes (.str "What is diabetes?")).map Prod.fst =
      ["intent", "entities", "query_type", "original_query"] ∧
    (process_query nlpDiabetes exDq exRt exFmt "What is diabetes?").2 ≤ 1 := by
  obtain ⟨h1, _, h3⟩ := interpret_keys_and_single_retrieve nlpDiabetes "What is diabetes?"
  exact ⟨h1 docDiabetes rfl rfl, h3 exDq exRt exFmt⟩

/-- Every successful run of the retrieval body reports status
"success". -/
theorem retrieve_body_ok_status (env : RetrieveEnv) (q : String) (r : RetrieveResult)
    (h : retrieve_body env q = .ok r) : r.status = "success" := by
  simp only [retrieve_body] at h
  cases he : env.encode q with
  | error e => rw [he] at h; simp at h
  | ok qv =>
    rw [he] at h
    dsimp only at h
    cases hv : get_vector_results env (retrieval_extract_entities q) qv with
    | error e => rw [hv] at h; simp at h
    | ok vr =>
      rw [hv] at h
      dsimp only at h
      cases hg : get_graph_results env q (retrieval_extract_entities q) with
      | error e => rw [hg] at h; simp at h
      | ok gr =>
        rw [hg] at h
        dsimp only at h
        split at h <;> (injection h with h2; rw [← h2])

/-- C7: `retrieve` is a total function of its oracles — it never raises:
either the body failed, in which case it returns the tagged error
dictionary whose `error` key carries the failure detail, or the body
succeeded and its result reports status "success". -/
theorem retrieve_never_raises (env : RetrieveEnv) (q : String) :
    (∃ e, retrieve_body env q = .error e ∧
      retrieve env q = ⟨"error", .msg "Error retrieving information", [], some e⟩) ∨
    (∃ r, retrieve_body env q = .ok r ∧ retrieve env q = r ∧ r.status = "success") := by
  cases h : retrieve_body env q with
  | error e => exact Or.inl ⟨e, rfl, by simp [retrieve, h]⟩
  | ok r => exact Or.inr ⟨r, rfl, by simp [retrieve, h], retrieve_body_ok_status env q r h⟩

/-- Closed form of the confidence when some top-3 record carries a
score: the sum of the present scores divided by their number. -/
theorem calculate_confidence_avg (l : List ScoredRec)
    (h : List.filterMap (fun r : ScoredRec => r.score) (l.take 3) ≠ []) :
    calculate_confidence l =
      (List.filterMap (fun r : ScoredRec => r.score) (l.take 3)).sum /
        ((List.filterMap (fun r : ScoredRec => r.score) (l.take 3)).length : ℚ) := by
  unfold calculate_confidence
  dsimp only
  split
  · next hEmpty =>
    exfalso
    apply h
    rw [List.isEmpty_iff.mp hEmpty]
    simp
  · split
    · next hs =>
      exfalso
      exact h (List.isEmpty_iff.mp hs)
    · rfl

/-- C8: the retrieval confidence is 0 on an empty list, the fixed default
3/10 when records exist but no top-3 record carries a score, otherwise
the average of the scores present among the top-3 (stated
multiplicatively); and replacing a top-3 record's score by a larger one
never decreases the confidence. -/
theorem calculate_confidence_spec :
    calculate_confidence [] = 0 ∧
    (∀ l : List ScoredRec, l ≠ [] → (∀ r ∈ l.take 3, r.score = none) →
      calculate_confidence l = 3 / 10) ∧
    (∀ l : List ScoredRec, (l.take 3).filterMap ScoredRec.score ≠ [] →
      calculate_confidence l * (((l.take 3).filterMap ScoredRec.score).length : ℚ) =
        ((l.take 3).filterMap ScoredRec.score).sum) ∧
    (∀ (pre post : List ScoredRec) (a b : ℚ), pre.length < 3 → a ≤ b →
      calculate_confidence (pre ++ ⟨some a⟩ :: post) ≤
        calculate_confidence (pre ++ ⟨some b⟩ :: post)) := by
  refine ⟨rfl, ?_, ?_, ?_⟩
  · intro l hl hnone
    unfold calculate_confidence
    rw [if_neg (by simpa [List.isEmpty_iff] using hl)]
    have hs : (l.take 3).filterMap ScoredRec.score = [] :=
      List.filterMap_eq_nil.mpr hnone
    simp [hs]
  · intro l hne
    have hne2 : List.filterMap (fun r : ScoredRec => r.score) (l.take 3) ≠ [] := hne
    rw [calculate_confidence_avg l hne2]
    have hlen : ((List.filterMap (fun r : ScoredRec => r.score) (l.take 3)).length : ℚ) ≠ 0 :=
      Nat.cast_ne_zero.mpr (by simpa [List.length_eq_zero] using hne2)
    field_simp
  · intro pre post a b hpre hab
    have htake : ∀ c : ℚ, (pre ++ (⟨some c⟩ : ScoredRec) :: post).take 3 =
        pre ++ (⟨some c⟩ : ScoredRec) :: post.take (2 - pre.length) := by
      intro c
      rw [List.take_append_eq_append_take, List.take_of_length_le (le_of_lt hpre),
        show 3 - pre.length = (2 - pre.length) + 1 by omega, List.take_succ_cons]
    have hscores : ∀ c : ℚ,
        List.filterMap (fun r : ScoredRec => r.score)
            ((pre ++ (⟨some c⟩ : ScoredRec) :: post).take 3) =
          List.filterMap (fun r : ScoredRec => r.score) pre ++
            c :: List.filterMap (fun r : ScoredRec => r.score) (post.take (2 - pre.length)) := by
      intro c
      rw [htake c, List.filterMap_append, List.filterMap_cons]
    have hsne : ∀ c : ℚ,
        List.filterMap (fun r : ScoredRec => r.score)
          ((pre ++ (⟨some c⟩ : ScoredRec) :: post).take 3) ≠ [] := by
      intro c
      rw [hscores c]
      simp
    rw [calculate_confidence_avg _ (hsne a), calculate_confidence_avg _ (hsne b),
      hscores a, hscores b]
    set S := List.filterMap (fun r : ScoredRec => r.score) pre
    set T := List.filterMap (fun r : ScoredRec => r.score) (post.take (2 - pre.length))
    have hlenpos : (0 : ℚ) < ((S ++ a :: T).length : ℚ) := by
      have h0 : 0 < (S ++ a :: T).length := by simp
      exact_mod_cast h0
    have hleneq : (S ++ b :: T).length = (S ++ a :: T).length := by simp
    rw [hleneq]
    apply (div_le_div_right hlenpos).mpr
    simp only [List.sum_append, List.sum_cons]
    linarith

/-- C8 (witness): the default and the monotonicity at concrete lists:
four records whose top-3 carry no score give 3/10, and raising the first
score of a two-record list from 1/4 to 1/2 does not lower the
confidence. -/
theorem calculate_confidence_spec_witness :
    calculate_confidence [⟨none⟩, ⟨none⟩, ⟨none⟩, ⟨some (9 / 10)⟩] = 3 / 10 ∧
    calculate_confidence [⟨some (1 / 4)⟩, ⟨some (1 / 2)⟩] ≤
      calculate_confidence [⟨some (1 / 2)⟩, ⟨some (1 / 2)⟩] := by
  refine ⟨?_, ?_⟩
  · exact calculate_confidence_spec.2.1 _ (by decide) (by decide)
  · exact calculate_confidence_spec.2.2.2 [] [⟨some (1 / 2)⟩] (1 / 4) (1 / 2)
      (by decide) (by norm_num)

end Queryverse
